import Mathlib

/-!
Shallow embedding of the `rfconversions` Rust library over exact real
arithmetic.  The library's `f64` scalars are modelled as `ℝ`, `f64::powf`
with base 10 as real exponentiation (`Real.rpow`), and `f64::log10` as
`Real.logb 10`.  The cascade functions panic on an empty stage slice; that
fatal precondition is modelled by returning `Option ℝ`, with `none` for the
panic.  Each definition is a direct transcription of the corresponding
function in `src/constants.rs`, `src/power.rs`, `src/frequency.rs`,
`src/noise.rs` and `src/p1db.rs`.
-/

namespace Rfconversions

noncomputable section

/-- `constants.rs`: `pub const SPEED_OF_LIGHT: f64 = 299792458.0;` -/
def SPEED_OF_LIGHT : ℝ := 299792458

/-- `constants.rs`: `pub const BOLTZMANN: f64 = 1.380649e-23;` -/
def BOLTZMANN : ℝ := 1.380649e-23

/-- `power.rs`: `db_to_linear(value) = 10.0_f64.powf(value / 10.0)`. -/
def db_to_linear (value : ℝ) : ℝ := (10 : ℝ) ^ (value / 10)

/-- `power.rs`: `linear_to_db(value) = 10.0 * f64::log10(value)`. -/
def linear_to_db (value : ℝ) : ℝ := 10 * Real.logb 10 value

/-- `power.rs`: `dbm_to_milliwatts(dbm) = 10.0_f64.powf(dbm / 10.0)`. -/
def dbm_to_milliwatts (dbm : ℝ) : ℝ := (10 : ℝ) ^ (dbm / 10)

/-- `power.rs`: `milliwatts_to_dbm(mw) = 10.0 * mw.log10()`. -/
def milliwatts_to_dbm (mw : ℝ) : ℝ := 10 * Real.logb 10 mw

/-- `frequency.rs`: `frequency_to_wavelength(f) = SPEED_OF_LIGHT / f`. -/
def frequency_to_wavelength (frequency : ℝ) : ℝ := SPEED_OF_LIGHT / frequency

/-- `frequency.rs`: `wavelength_to_frequency(l) = SPEED_OF_LIGHT / l`. -/
def wavelength_to_frequency (wavelength : ℝ) : ℝ := SPEED_OF_LIGHT / wavelength

/-- `noise.rs`: `noise_temperature_from_noise_factor(F) = 290.0 * (F - 1.0)`. -/
def noise_temperature_from_noise_factor (noise_factor : ℝ) : ℝ :=
  290 * (noise_factor - 1)

/-- `noise.rs`: `noise_factor_from_noise_figure(nf) = 10.0_f64.powf(nf / 10.0)`. -/
def noise_factor_from_noise_figure (noise_figure : ℝ) : ℝ :=
  (10 : ℝ) ^ (noise_figure / 10)

/-- `noise.rs`: composition of the figure→factor and factor→temperature maps. -/
def noise_temperature_from_noise_figure (noise_figure : ℝ) : ℝ :=
  noise_temperature_from_noise_factor (noise_factor_from_noise_figure noise_figure)

/-- `noise.rs`: `noise_factor_from_noise_temperature(t) = 1.0 + (t / 290.0)`. -/
def noise_factor_from_noise_temperature (noise_temperature : ℝ) : ℝ :=
  1 + noise_temperature / 290

/-- `noise.rs`: `noise_figure_from_noise_factor(F) = 10.0_f64 * F.log10()`. -/
def noise_figure_from_noise_factor (noise_factor : ℝ) : ℝ :=
  10 * Real.logb 10 noise_factor

/-- `noise.rs`: composition of the temperature→factor and factor→figure maps. -/
def noise_figure_from_noise_temperature (noise_temperature : ℝ) : ℝ :=
  noise_figure_from_noise_factor (noise_factor_from_noise_temperature noise_temperature)

/-- `noise.rs`: `noise_power_from_bandwidth(t, b) = 1.38e-23 * t * b`
(the body hard-codes the literal `1.38e-23`; it does not read `BOLTZMANN`). -/
def noise_power_from_bandwidth (temperature bandwidth : ℝ) : ℝ :=
  1.38e-23 * temperature * bandwidth

/-- The `for` loop of `cascade_noise_factor`, with the mutable accumulators
`f_total` and `cumulative_gain` passed explicitly. -/
def cascadeFactorLoop : List (ℝ × ℝ) → ℝ → ℝ → ℝ
  | [], f_total, _ => f_total
  | (noise_factor, gain) :: rest, f_total, cumulative_gain =>
      cascadeFactorLoop rest (f_total + (noise_factor - 1) / cumulative_gain)
        (cumulative_gain * gain)

/-- `noise.rs`: `cascade_noise_factor(stages)`.  The Rust function asserts
`!stages.is_empty()` and panics otherwise; the panic is modelled as `none`. -/
def cascade_noise_factor : List (ℝ × ℝ) → Option ℝ
  | [] => none
  | s :: rest => some (cascadeFactorLoop rest s.1 s.2)

/-- The per-stage conversion done inside `cascade_noise_figure`:
`(nf_db, gain_db) ↦ (noise_factor_from_noise_figure(nf_db), db_to_linear(gain_db))`. -/
def linStage (s : ℝ × ℝ) : ℝ × ℝ :=
  (noise_factor_from_noise_figure s.1, db_to_linear s.2)

/-- `noise.rs`: `cascade_noise_figure(stages)` converts every stage to linear
units, delegates to `cascade_noise_factor`, and converts the result back. -/
def cascade_noise_figure (stages : List (ℝ × ℝ)) : Option ℝ :=
  (cascade_noise_factor (stages.map linStage)).map noise_figure_from_noise_factor

/-- The `for` loop of `cascade_noise_temperature`, with the mutable
accumulators `t_total` and `cumulative_gain` passed explicitly. -/
def cascadeTempLoop : List (ℝ × ℝ) → ℝ → ℝ → ℝ
  | [], t_total, _ => t_total
  | (temp, gain) :: rest, t_total, cumulative_gain =>
      cascadeTempLoop rest (t_total + temp / cumulative_gain)
        (cumulative_gain * gain)

/-- `noise.rs`: `cascade_noise_temperature(stages)`; the empty-slice panic is
modelled as `none`. -/
def cascade_noise_temperature : List (ℝ × ℝ) → Option ℝ
  | [] => none
  | s :: rest => some (cascadeTempLoop rest s.1 s.2)

/-- `p1db.rs`: `input_to_output_db(p, g) = p + (g - 1.0)`. -/
def input_to_output_db (input_p1db gain_db : ℝ) : ℝ :=
  input_p1db + (gain_db - 1)

/-- `p1db.rs`: `output_to_input_db(p, g) = p - (g - 1.0)`. -/
def output_to_input_db (output_p1db gain_db : ℝ) : ℝ :=
  output_p1db - (gain_db - 1)

/-- `p1db.rs`: `cascade_output_p1db_linear(c, s, g) = 1/((1/c)*g + 1/s)`. -/
def cascade_output_p1db_linear (cumulative_output_p1db_linear
    current_stage_output_p1db_linear current_stage_gain_linear : ℝ) : ℝ :=
  1 / (1 / cumulative_output_p1db_linear * current_stage_gain_linear
       + 1 / current_stage_output_p1db_linear)

/-- The Friis series written as the spec states it: the term contributed by
each stage after the first is `(F - 1)` divided by the product of the gains of
all earlier stages.  `friisTerms cg l` lists those terms for the tail `l` of a
chain whose stages so far have accumulated gain `cg`. -/
def friisTerms : ℝ → List (ℝ × ℝ) → List ℝ
  | _, [] => []
  | cg, (noise_factor, gain) :: rest =>
      ((noise_factor - 1) / cg) :: friisTerms (cg * gain) rest

/-- The per-stage conversion into the temperature representation used by the
cross-representation consistency test in `noise.rs`
(`cascade_noise_temperature_matches_factor`):
`(nf_db, gain_db) ↦ (noise_temperature_from_noise_figure(nf_db), db_to_linear(gain_db))`. -/
def tempStage (s : ℝ × ℝ) : ℝ × ℝ :=
  (noise_temperature_from_noise_figure s.1, db_to_linear s.2)

end

/-- Unfolding the accumulator loop of `cascade_noise_factor` into the Friis
series: the loop adds to the running total the sum of the series terms. -/
lemma cascadeFactorLoop_eq_sum (l : List (ℝ × ℝ)) (t cg : ℝ) :
    cascadeFactorLoop l t cg = t + (friisTerms cg l).sum := by
  induction l generalizing t cg with
  | nil => simp [cascadeFactorLoop, friisTerms]
  | cons s rest ih =>
      obtain ⟨F, G⟩ := s
      simp only [cascadeFactorLoop, friisTerms, List.sum_cons, ih]
      ring

/-- Claim C1: `cascade_noise_factor` on a non-empty chain returns the Friis
total `F₁ + (F₂-1)/G₁ + (F₃-1)/(G₁·G₂) + ...` computed by the accumulator
algorithm, and on a single-stage chain `[(F, G)]` it returns exactly `F`,
independent of `G`. -/
theorem cascade_noise_factor_friis (s0 : ℝ × ℝ) (rest : List (ℝ × ℝ)) :
    cascade_noise_factor (s0 :: rest) = some (s0.1 + (friisTerms s0.2 rest).sum) ∧
    ∀ F G : ℝ, cascade_noise_factor [(F, G)] = some F := by
  constructor
  · obtain ⟨f0, g0⟩ := s0
    simp [cascade_noise_factor, cascadeFactorLoop_eq_sum]
  · intro F G
    simp [cascade_noise_factor, cascadeFactorLoop]

/-- Claim C3: each cascade function yields no value (the Rust code panics,
modelled as `none`) exactly on the empty stage sequence, and yields a value on
every non-empty sequence. -/
theorem cascade_empty_fails :
    cascade_noise_factor [] = none ∧ cascade_noise_figure [] = none ∧
    cascade_noise_temperature [] = none ∧
    ∀ (s : ℝ × ℝ) (rest : List (ℝ × ℝ)),
      (cascade_noise_factor (s :: rest)).isSome = true ∧
      (cascade_noise_figure (s :: rest)).isSome = true ∧
      (cascade_noise_temperature (s :: rest)).isSome = true := by
  refine ⟨rfl, rfl, rfl, ?_⟩
  rintro ⟨a, b⟩ rest
  refine ⟨rfl, ?_, rfl⟩
  simp [cascade_noise_figure, cascade_noise_factor, linStage]

/-- Claim C5: `cascade_output_p1db_linear` computes the reciprocal power-sum
`1 / ((1/cumulative)·gain + 1/stage)`, and on the reference scenario
`(100, 50, 2)` it returns exactly `25`. -/
theorem cascade_output_p1db_linear_formula (c s g : ℝ) :
    cascade_output_p1db_linear c s g = 1 / (1 / c * g + 1 / s) ∧
    cascade_output_p1db_linear 100 50 2 = 25 := by
  refine ⟨rfl, ?_⟩
  norm_num [cascade_output_p1db_linear]

/-- Claim C7: `input_to_output_db` and `output_to_input_db` are exact inverses
in both directions for every P1dB value and every gain, and in particular
`output_to_input_db (input_to_output_db (-10) 25) 25 = -10`. -/
theorem p1db_referral_inverses (p g : ℝ) :
    output_to_input_db (input_to_output_db p g) g = p ∧
    input_to_output_db (output_to_input_db p g) g = p ∧
    output_to_input_db (input_to_output_db (-10) 25) 25 = -10 := by
  refine ⟨?_, ?_, ?_⟩ <;>
    simp [input_to_output_db, output_to_input_db]

/-- Claim C10: the dBm↔milliwatts pair coincides extensionally with the
dB↔linear pair: `dbm_to_milliwatts = db_to_linear` and
`milliwatts_to_dbm = linear_to_db` pointwise. -/
theorem dbm_milliwatts_coincide (x : ℝ) :
    dbm_to_milliwatts x = db_to_linear x ∧ milliwatts_to_dbm x = linear_to_db x :=
  ⟨rfl, rfl⟩

/-- Rescaling the temperature-domain loop: feeding the factor-domain stages
through `(F, G) ↦ (290·(F-1), G)` turns the factor accumulator `f` into the
temperature accumulator `290·(f-1)` and keeps them in lock-step. -/
lemma cascadeTempLoop_scaled (l : List (ℝ × ℝ)) (f cg : ℝ) :
    cascadeTempLoop (l.map fun s => (290 * (s.1 - 1), s.2)) (290 * (f - 1)) cg
      = 290 * (cascadeFactorLoop l f cg - 1) := by
  induction l generalizing f cg with
  | nil => simp [cascadeTempLoop, cascadeFactorLoop]
  | cons s rest ih =>
      obtain ⟨F, G⟩ := s
      simp only [List.map_cons, cascadeTempLoop, cascadeFactorLoop]
      have h : 290 * (f - 1) + 290 * (F - 1) / cg
          = 290 * ((f + (F - 1) / cg) - 1) := by ring
      rw [h, ih]

/-- Claim C2: cascading through the noise-temperature representation (each
stage converted by `tempStage`) and converting the result back to noise
figure agrees exactly (over exact real arithmetic, hence within any
floating-point tolerance) with the figure-domain cascade. -/
theorem cascade_temperature_figure_agree (s0 : ℝ × ℝ) (rest : List (ℝ × ℝ)) :
    (cascade_noise_temperature ((s0 :: rest).map tempStage)).map
        noise_figure_from_noise_temperature
      = cascade_noise_figure (s0 :: rest) := by
  obtain ⟨nf0, g0⟩ := s0
  have hmap : List.map tempStage rest
      = List.map (fun s => (290 * (s.1 - 1), s.2)) (List.map linStage rest) := by
    rw [List.map_map]; rfl
  have hX := cascadeTempLoop_scaled (List.map linStage rest)
      (noise_factor_from_noise_figure nf0) (db_to_linear g0)
  show some (noise_figure_from_noise_temperature
        (cascadeTempLoop (List.map tempStage rest)
          (noise_temperature_from_noise_figure nf0) (db_to_linear g0)))
      = some (noise_figure_from_noise_factor
        (cascadeFactorLoop (List.map linStage rest)
          (noise_factor_from_noise_figure nf0) (db_to_linear g0)))
  have h290 : noise_temperature_from_noise_figure nf0
      = 290 * (noise_factor_from_noise_figure nf0 - 1) := rfl
  rw [hmap, h290, hX]
  unfold noise_figure_from_noise_temperature noise_factor_from_noise_temperature
  congr 2
  ring

/-- Claim C4, counterexample at `T = 1`, `B = 1`: the thermal-noise power the
code returns is the hard-coded literal `1.38e-23`, not the exported constant
`BOLTZMANN = 1.380649e-23`. -/
theorem noise_power_not_boltzmann :
    noise_power_from_bandwidth 1 1 ≠ BOLTZMANN * 1 * 1 := by
  norm_num [noise_power_from_bandwidth, BOLTZMANN]

/-- Claim C4 as amended: `noise_power_from_bandwidth` returns `k·T·B` with the
hard-coded rounded constant `k = 1.38e-23`, which differs from the exported
`BOLTZMANN = 1.380649e-23`. -/
theorem noise_power_hardcoded_constant (t b : ℝ) :
    noise_power_from_bandwidth t b = 1.38e-23 * t * b ∧
    (1.38e-23 : ℝ) ≠ BOLTZMANN := by
  refine ⟨rfl, ?_⟩
  norm_num [BOLTZMANN]

/-- Claim C6: with positive linear inputs, the cascaded output compression
point never exceeds either stage's individually-referred OP1dB projected to
the new stage's output. -/
theorem cascade_output_p1db_linear_le_min (c s g : ℝ)
    (hc : 0 < c) (hs : 0 < s) (hg : 0 < g) :
    cascade_output_p1db_linear c s g ≤ min (c / g) s := by
  unfold cascade_output_p1db_linear
  have h1 : 0 < 1 / c * g := by positivity
  have h2 : 0 < 1 / s := by positivity
  refine le_min ?_ ?_
  · have hle : 1 / c * g ≤ 1 / c * g + 1 / s := by linarith
    calc 1 / (1 / c * g + 1 / s) ≤ 1 / (1 / c * g) :=
          one_div_le_one_div_of_le h1 hle
      _ = c / g := by
          rw [one_div_mul_eq_div, one_div_div]
  · have hle : 1 / s ≤ 1 / c * g + 1 / s := by linarith
    calc 1 / (1 / c * g + 1 / s) ≤ 1 / (1 / s) :=
          one_div_le_one_div_of_le h2 hle
      _ = s := one_div_one_div s

/-- Witness for C6 at the reference scenario `(100, 50, 2)`. -/
theorem cascade_output_p1db_linear_le_min_witness :
    (0 : ℝ) < 100 ∧ (0 : ℝ) < 50 ∧ (0 : ℝ) < 2 ∧
    cascade_output_p1db_linear 100 50 2 ≤ min ((100 : ℝ) / 2) 50 :=
  ⟨by norm_num, by norm_num, by norm_num,
    cascade_output_p1db_linear_le_min 100 50 2 (by norm_num) (by norm_num)
      (by norm_num)⟩

/-- Claim C8: for every positive frequency, converting to wavelength and back
returns the frequency exactly (both directions divide the same constant). -/
theorem wavelength_frequency_roundtrip (f : ℝ) (hf : 0 < f) :
    wavelength_to_frequency (frequency_to_wavelength f) = f := by
  have hc : SPEED_OF_LIGHT ≠ 0 := by norm_num [SPEED_OF_LIGHT]
  have hf0 : f ≠ 0 := ne_of_gt hf
  rw [wavelength_to_frequency, frequency_to_wavelength]
  field_simp

/-- Witness for C8 at `f = 2`. -/
theorem wavelength_frequency_roundtrip_witness :
    (0 : ℝ) < 2 ∧ wavelength_to_frequency (frequency_to_wavelength 2) = 2 :=
  ⟨zero_lt_two, wavelength_frequency_roundtrip 2 zero_lt_two⟩

/-- The gain of the final stage is multiplied into `cumulative_gain` but the
loop ends before any later read, so it cannot influence the factor loop. -/
lemma cascadeFactorLoop_last_gain (l : List (ℝ × ℝ)) (F g g' t cg : ℝ) :
    cascadeFactorLoop (l ++ [(F, g)]) t cg
      = cascadeFactorLoop (l ++ [(F, g')]) t cg := by
  induction l generalizing t cg with
  | nil => simp [cascadeFactorLoop]
  | cons s rest ih =>
      obtain ⟨a, b⟩ := s
      simp only [List.cons_append, cascadeFactorLoop]
      exact ih _ _

/-- Same statement for the temperature loop. -/
lemma cascadeTempLoop_last_gain (l : List (ℝ × ℝ)) (T g g' t cg : ℝ) :
    cascadeTempLoop (l ++ [(T, g)]) t cg
      = cascadeTempLoop (l ++ [(T, g')]) t cg := by
  induction l generalizing t cg with
  | nil => simp [cascadeTempLoop]
  | cons s rest ih =>
      obtain ⟨a, b⟩ := s
      simp only [List.cons_append, cascadeTempLoop]
      exact ih _ _

/-- Claim C9: neither `cascade_noise_factor` nor `cascade_noise_temperature`
depends on the gain component of the final stage — chains identical except in
that gain give equal results. -/
theorem cascade_last_stage_gain_irrelevant (init : List (ℝ × ℝ)) (F g g' : ℝ) :
    cascade_noise_factor (init ++ [(F, g)])
        = cascade_noise_factor (init ++ [(F, g')]) ∧
    cascade_noise_temperature (init ++ [(F, g)])
        = cascade_noise_temperature (init ++ [(F, g')]) := by
  cases init with
  | nil => exact ⟨rfl, rfl⟩
  | cons s rest =>
      constructor
      · simp only [List.cons_append, cascade_noise_factor]
        exact congrArg some (cascadeFactorLoop_last_gain rest F g g' s.1 s.2)
      · simp only [List.cons_append, cascade_noise_temperature]
        exact congrArg some (cascadeTempLoop_last_gain rest F g g' s.1 s.2)

end Rfconversions
